import Mathlib

/-!
Shallow embedding of the gesture-driven solar system application:
the gesture classifier of HandController.tsx, and the scene transition
engine, orbital motion model and procedural texture synthesizer of
SolarSystem.tsx. All numeric quantities are modelled as exact
rationals; the external trigonometric functions and the coherent noise
field are abstract function parameters.
-/

/-- A single hand landmark: a 3D point in normalized image space, with
the y axis increasing downward. -/
structure Landmark where
  x : ℚ
  y : ℚ
  z : ℚ

/-- A LandmarkSet: exactly 21 ordered landmarks of one detected hand. -/
def LandmarkSet : Type := Fin 21 → Landmark

/-- The binary gesture state. -/
inductive GestureState where
  | OPEN
  | FIST
deriving DecidableEq

/-- From HandController.tsx, onResults: a finger counts as closed when
the fingertip y coordinate is strictly greater than the proximal joint
y coordinate. -/
def isFingerClosed (lm : LandmarkSet) (tipIdx pipIdx : Fin 21) : Bool :=
  decide ((lm tipIdx).y > (lm pipIdx).y)

/-- From HandController.tsx, onResults: number of closed fingers among
index (8,6), middle (12,10), ring (16,14) and pinky (20,18); the thumb
is excluded. -/
def closedFingers (lm : LandmarkSet) : Nat :=
  (if isFingerClosed lm 8 6 then 1 else 0) +
  (if isFingerClosed lm 12 10 then 1 else 0) +
  (if isFingerClosed lm 16 14 then 1 else 0) +
  (if isFingerClosed lm 20 18 then 1 else 0)

/-- From HandController.tsx, onResults: with no hand detected the
result is OPEN; otherwise three or more closed fingers give FIST and
anything else gives OPEN. -/
def classify (hand : Option LandmarkSet) : GestureState :=
  match hand with
  | none => GestureState.OPEN
  | some lm =>
      if closedFingers lm ≥ 3 then GestureState.FIST else GestureState.OPEN

/-- Claim C1: classify of a present hand returns FIST exactly when at
least 3 of the 4 tracked fingers have fingertip y strictly greater than
proximal joint y, returns OPEN exactly when at most 2 do, and classify
of a missing hand is OPEN. -/
theorem C1_classify_threshold :
    classify none = GestureState.OPEN ∧
    ∀ lm : LandmarkSet,
      (classify (some lm) = GestureState.FIST ↔ 3 ≤ closedFingers lm) ∧
      (classify (some lm) = GestureState.OPEN ↔ closedFingers lm ≤ 2) := by
  refine ⟨rfl, fun lm => ?_⟩
  unfold classify
  by_cases h : 3 ≤ closedFingers lm
  · simp [h]
    omega
  · simp [h]
    omega

/-- Configuration constants of SolarSystem.tsx that the animation loop
reads (the rendering-only entries are external). -/
structure Config where
  sunSize : ℚ
  speedFactor : ℚ

/-- From SolarSystem.tsx, CONFIG. -/
def CONFIG : Config := { sunSize := 15, speedFactor := 3/10 }

/-- Static descriptor of one orbiting body, as listed in PLANETS. -/
structure PlanetSpec where
  name : String
  size : ℚ
  dist : ℚ
  speed : ℚ
  color : String
  type : String
  ring : Bool := false

/-- From SolarSystem.tsx, PLANETS. -/
def PLANETS : List PlanetSpec :=
  [ { name := "Mercury", size := 3/2, dist := 35, speed := -(1/25),
      color := "#b0a090", type := "Terrestrial" },
    { name := "Venus", size := 7/2, dist := 50, speed := -(3/200),
      color := "#e3bb76", type := "Terrestrial" },
    { name := "Earth", size := 19/5, dist := 70, speed := -(1/100),
      color := "#2277ff", type := "Terrestrial" },
    { name := "Mars", size := 2, dist := 90, speed := -(1/125),
      color := "#c1440e", type := "Terrestrial" },
    { name := "Jupiter", size := 9, dist := 130, speed := -(1/250),
      color := "#dcb288", type := "Gas Giant" },
    { name := "Saturn", size := 15/2, dist := 170, speed := -(3/1000),
      color := "#eebb88", type := "Gas Giant", ring := true },
    { name := "Uranus", size := 5, dist := 210, speed := -(1/500),
      color := "#aaddff", type := "Ice Giant" },
    { name := "Neptune", size := 24/5, dist := 245, speed := -(1/1000),
      color := "#3355ff", type := "Ice Giant" } ]

/-- A 3D vector with exact rational components. -/
structure Vec3 where
  x : ℚ
  y : ℚ
  z : ℚ
deriving DecidableEq

/-- The scalar exponential-smoothing step used by THREE.Vector3.lerp:
the current value moves toward the target by the fixed fraction t. -/
def lerp (cur tgt t : ℚ) : ℚ := cur + (tgt - cur) * t

/-- Componentwise THREE.Vector3.lerp: each component moves toward the
target component by the fraction t, exactly the scalar lerp applied to
x, y and z. -/
def Vec3.lerp (v w : Vec3) (t : ℚ) : Vec3 :=
  ⟨v.x + (w.x - v.x) * t, v.y + (w.y - v.y) * t, v.z + (w.z - v.z) * t⟩

/-- THREE.MathUtils.lerp, used for the orbit-ring opacity. -/
def mathLerp (a b t : ℚ) : ℚ := (1 - t) * a + t * b

/-- Mutable animation state of one planet group: the userData angle,
the group position and scale, and the y rotation of the planet mesh. -/
structure GroupState where
  angle : ℚ
  pos : Vec3
  scale : Vec3
  meshRotY : ℚ
deriving DecidableEq

/-- Mutable animation state of the sun: its scale, the visibility of
its glow sprite and its y rotation. -/
structure SunState where
  scale : Vec3
  spriteVisible : Bool
  rotY : ℚ
deriving DecidableEq

/-- From SolarSystem.tsx, PLANETS.forEach: the initial placement of a
planet group at a random start angle, with y = 0, default scale 1 and
default mesh rotation 0. The userData speed is the PLANETS speed
scaled by the global CONFIG.speedFactor. -/
def initGroup (c s : ℚ → ℚ) (dist : ℚ) (angle : ℚ) : GroupState :=
  { angle := angle,
    pos := ⟨c angle * dist, 0, s angle * dist⟩,
    scale := ⟨1, 1, 1⟩,
    meshRotY := 0 }

/-- From SolarSystem.tsx, animate, planets logic: one frame of the
transition engine for one planet group. c and s abstract Math.cos and
Math.sin; name, dist and speed are the userData fields stored at
construction (speed already scaled by CONFIG.speedFactor). In the
merged state the Earth group is driven to the origin at scale 6 with a
faster mesh spin, every other group is driven to the origin at
near-zero scale; in the normal state the angle integrates by speed and
the group is driven to the orbit point at scale 1. -/
def stepPlanet (c s : ℚ → ℚ) (isMerged : Bool) (name : String)
    (dist speed : ℚ) (g : GroupState) : GroupState :=
  if isMerged then
    if name = "Earth" then
      { g with
        pos := g.pos.lerp ⟨0, 0, 0⟩ (1/20),
        scale := g.scale.lerp ⟨6, 6, 6⟩ (1/20),
        meshRotY := g.meshRotY + 1/50 }
    else
      { g with
        pos := g.pos.lerp ⟨0, 0, 0⟩ (1/10),
        scale := g.scale.lerp ⟨1/1000, 1/1000, 1/1000⟩ (1/10) }
  else
    let angleNext := g.angle + speed
    { angle := angleNext,
      pos := g.pos.lerp ⟨c angleNext * dist, 0, s angleNext * dist⟩ (1/20),
      scale := g.scale.lerp ⟨1, 1, 1⟩ (1/20),
      meshRotY := g.meshRotY + 1/200 }

/-- From SolarSystem.tsx, animate, sun logic: the sun scale smooths
toward 0.001 when merged and toward 1 otherwise, the glow sprite is
visible exactly when not merged, and the sun spins by 0.002 per
frame. -/
def stepSun (isMerged : Bool) (st : SunState) : SunState :=
  let targetSunScale : ℚ := if isMerged then 1/1000 else 1
  { scale := st.scale.lerp ⟨targetSunScale, targetSunScale, targetSunScale⟩ (1/20),
    spriteVisible := !isMerged,
    rotY := st.rotY + 1/500 }

/-- From SolarSystem.tsx, animate, orbit meshes: ring opacity smooths
toward 0 when merged and toward 0.2 otherwise. -/
def stepOrbitOpacity (isMerged : Bool) (opacity : ℚ) : ℚ :=
  mathLerp opacity (if isMerged then 0 else 1/5) (1/20)

/-- Claim C2: a merged-state frame drives the sun scale toward the
near-zero target 0.001 and hides its glow sprite; drives the Earth
group toward the origin at the fixed large target scale 6 with a mesh
spin increment 0.02 exceeding the normal-state 0.005; and drives every
other group toward the origin at the near-zero target scale 0.001. -/
theorem C2_merged_frame_targets (st : SunState) (g : GroupState)
    (c s : ℚ → ℚ) (name : String) (dist speed : ℚ) :
    (stepSun true st).scale
        = st.scale.lerp ⟨1/1000, 1/1000, 1/1000⟩ (1/20) ∧
    (stepSun true st).spriteVisible = false ∧
    (stepPlanet c s true "Earth" dist speed g).pos
        = g.pos.lerp ⟨0, 0, 0⟩ (1/20) ∧
    (stepPlanet c s true "Earth" dist speed g).scale
        = g.scale.lerp ⟨6, 6, 6⟩ (1/20) ∧
    (stepPlanet c s true "Earth" dist speed g).meshRotY
        = g.meshRotY + 1/50 ∧
    ((1 : ℚ)/200 < 1/50) ∧
    (name ≠ "Earth" →
      (stepPlanet c s true name dist speed g).pos
          = g.pos.lerp ⟨0, 0, 0⟩ (1/10) ∧
      (stepPlanet c s true name dist speed g).scale
          = g.scale.lerp ⟨1/1000, 1/1000, 1/1000⟩ (1/10)) := by
  refine ⟨rfl, rfl, rfl, rfl, rfl, by norm_num, fun h => ?_⟩
  simp [stepPlanet, h]

/-- Concrete instance of C2_merged_frame_targets for the body named
Mercury in a concrete state. -/
theorem C2_merged_frame_targets_witness :
    ("Mercury" : String) ≠ "Earth" ∧
    ((stepPlanet (fun _ => 1) (fun _ => 0) true "Mercury" 35 (-(3/250))
        ⟨0, ⟨35, 0, 0⟩, ⟨1, 1, 1⟩, 0⟩).pos
      = Vec3.lerp ⟨35, 0, 0⟩ ⟨0, 0, 0⟩ (1/10) ∧
     (stepPlanet (fun _ => 1) (fun _ => 0) true "Mercury" 35 (-(3/250))
        ⟨0, ⟨35, 0, 0⟩, ⟨1, 1, 1⟩, 0⟩).scale
      = Vec3.lerp ⟨1, 1, 1⟩ ⟨1/1000, 1/1000, 1/1000⟩ (1/10)) :=
  ⟨by decide,
   (C2_merged_frame_targets ⟨⟨1, 1, 1⟩, true, 0⟩
      ⟨0, ⟨35, 0, 0⟩, ⟨1, 1, 1⟩, 0⟩ (fun _ => 1) (fun _ => 0)
      "Mercury" 35 (-(3/250))).2.2.2.2.2.2 (by decide)⟩

/-- Claim C3: an open-state frame integrates the angle by the userData
speed, which is the per-body PLANETS speed scaled by the global
CONFIG.speedFactor, and smooths the position toward the orbit point of
the updated angle; with speed -0.01, factor 0.3 and starting angle 0,
one frame yields angle -0.003 and the orbit target at angle -0.003. -/
theorem C3_open_frame_integration (c s : ℚ → ℚ) (name : String)
    (p : PlanetSpec) (g : GroupState) :
    (stepPlanet c s false name p.dist (p.speed * CONFIG.speedFactor) g).angle
        = g.angle + p.speed * CONFIG.speedFactor ∧
    (stepPlanet c s false name p.dist (p.speed * CONFIG.speedFactor) g).pos
        = g.pos.lerp
            ⟨c (g.angle + p.speed * CONFIG.speedFactor) * p.dist, 0,
             s (g.angle + p.speed * CONFIG.speedFactor) * p.dist⟩ (1/20) ∧
    (p.speed = -(1/100) → g.angle = 0 →
      (stepPlanet c s false name p.dist (p.speed * CONFIG.speedFactor) g).angle
          = -(3/1000) ∧
      (stepPlanet c s false name p.dist (p.speed * CONFIG.speedFactor) g).pos
          = g.pos.lerp
              ⟨c (-(3/1000)) * p.dist, 0, s (-(3/1000)) * p.dist⟩ (1/20)) := by
  refine ⟨rfl, rfl, fun hs ha => ?_⟩
  have hv : g.angle + p.speed * CONFIG.speedFactor = -(3/1000) := by
    rw [hs, ha, CONFIG]
    norm_num
  constructor
  · show g.angle + p.speed * CONFIG.speedFactor = -(3/1000)
    exact hv
  · show g.pos.lerp
        ⟨c (g.angle + p.speed * CONFIG.speedFactor) * p.dist, 0,
         s (g.angle + p.speed * CONFIG.speedFactor) * p.dist⟩ (1/20) = _
    rw [hv]

/-- Concrete instance of C3_open_frame_integration at the PLANETS entry
for Earth, starting angle 0. -/
theorem C3_open_frame_integration_witness :
    (PLANETS.get ⟨2, by decide⟩).speed = -(1/100) ∧
    (0 : ℚ) = 0 ∧
    ((stepPlanet (fun _ => 1) (fun _ => 0) false "Earth"
        (PLANETS.get ⟨2, by decide⟩).dist
        ((PLANETS.get ⟨2, by decide⟩).speed * CONFIG.speedFactor)
        ⟨0, ⟨70, 0, 0⟩, ⟨1, 1, 1⟩, 0⟩).angle = -(3/1000) ∧
     (stepPlanet (fun _ => 1) (fun _ => 0) false "Earth"
        (PLANETS.get ⟨2, by decide⟩).dist
        ((PLANETS.get ⟨2, by decide⟩).speed * CONFIG.speedFactor)
        ⟨0, ⟨70, 0, 0⟩, ⟨1, 1, 1⟩, 0⟩).pos
      = Vec3.lerp ⟨70, 0, 0⟩
          ⟨1 * (PLANETS.get ⟨2, by decide⟩).dist, 0,
           0 * (PLANETS.get ⟨2, by decide⟩).dist⟩ (1/20)) :=
  ⟨rfl, rfl,
   (C3_open_frame_integration (fun _ => 1) (fun _ => 0) "Earth"
      (PLANETS.get ⟨2, by decide⟩) ⟨0, ⟨70, 0, 0⟩, ⟨1, 1, 1⟩, 0⟩).2.2
      rfl rfl⟩

/-- Claim C4: one scalar smoothing step with factor strictly between 0
and 1 and a stationary target it has not reached moves strictly closer
to the target, stays strictly between the old value and the target (no
overshoot, no oscillation), and never lands exactly on the target. -/
theorem C4_lerp_convergence (cur tgt f : ℚ)
    (h0 : 0 < f) (h1 : f < 1) (hne : cur ≠ tgt) :
    |tgt - lerp cur tgt f| < |tgt - cur| ∧
    (cur < tgt → cur < lerp cur tgt f ∧ lerp cur tgt f < tgt) ∧
    (tgt < cur → tgt < lerp cur tgt f ∧ lerp cur tgt f < cur) ∧
    lerp cur tgt f ≠ tgt := by
  have hdiff : tgt - lerp cur tgt f = (tgt - cur) * (1 - f) := by
    unfold lerp
    ring
  have hsub : tgt - cur ≠ 0 := sub_ne_zero.mpr (fun h => hne h.symm)
  refine ⟨?_, ?_, ?_, ?_⟩
  · rw [hdiff, abs_mul]
    have habs : 0 < |tgt - cur| := abs_pos.mpr hsub
    have h1f : |1 - f| < 1 := by
      rw [abs_of_pos (by linarith)]
      linarith
    calc |tgt - cur| * |1 - f| < |tgt - cur| * 1 := by
          exact mul_lt_mul_of_pos_left h1f habs
      _ = |tgt - cur| := mul_one _
  · intro hlt
    unfold lerp
    constructor
    · nlinarith
    · nlinarith
  · intro hlt
    unfold lerp
    constructor
    · nlinarith
    · nlinarith
  · intro heq
    have : tgt - lerp cur tgt f = 0 := by rw [heq, sub_self]
    rw [hdiff] at this
    rcases mul_eq_zero.mp this with h | h
    · exact hsub h
    · linarith

/-- Concrete instance of C4_lerp_convergence at cur 0, tgt 1 and the
factor 1/20 used by the transition engine. -/
theorem C4_lerp_convergence_witness :
    (0 : ℚ) < 1/20 ∧ (1/20 : ℚ) < 1 ∧ (0 : ℚ) ≠ 1 ∧
    (|1 - lerp 0 1 (1/20)| < |1 - (0 : ℚ)| ∧
     ((0 : ℚ) < 1 → (0 : ℚ) < lerp 0 1 (1/20) ∧ lerp 0 1 (1/20) < 1) ∧
     ((1 : ℚ) < 0 → (1 : ℚ) < lerp 0 1 (1/20) ∧ lerp 0 1 (1/20) < 0) ∧
     lerp 0 1 (1/20) ≠ 1) :=
  ⟨by simp, by simp [inv_lt_one₀], by decide,
   C4_lerp_convergence 0 1 (1/20) (by simp) (by simp [inv_lt_one₀]) (by decide)⟩

/-- Claim C6: a merged-state frame leaves the userData angle of every
planet group unchanged, while an open-state frame advances it by the
stored speed. -/
theorem C6_merged_angle_frozen (c s : ℚ → ℚ) (name : String)
    (dist speed : ℚ) (g : GroupState) :
    (stepPlanet c s true name dist speed g).angle = g.angle ∧
    (stepPlanet c s false name dist speed g).angle = g.angle + speed := by
  constructor
  · unfold stepPlanet
    by_cases h : name = "Earth" <;> simp [h]
  · rfl

/-- A run of the animation loop over a planet group: one stepPlanet
frame per entry of the flag list, each flag telling whether that frame
executed in the merged state. -/
def runFrames (c s : ℚ → ℚ) (name : String) (dist speed : ℚ)
    (flags : List Bool) (g : GroupState) : GroupState :=
  flags.foldl (fun acc b => stepPlanet c s b name dist speed acc) g

/-- Helper: a single frame of either state preserves a zero y
coordinate of the group position, since every target position has
y = 0 and the componentwise lerp fixes an already-reached component. -/
theorem stepPlanet_preserves_y0 (c s : ℚ → ℚ) (b : Bool) (name : String)
    (dist speed : ℚ) (g : GroupState) (h : g.pos.y = 0) :
    (stepPlanet c s b name dist speed g).pos.y = 0 := by
  unfold stepPlanet Vec3.lerp
  cases b
  · simp [h]
  · by_cases hn : name = "Earth" <;> simp [hn, h]

/-- Claim C10: the initial placement of every planet group has y = 0,
and every run of frames, in any interleaving of merged and open
states, keeps the group position at y = 0; in particular every state
reachable from the initial placement satisfies the invariant. -/
theorem C10_y_zero_invariant (c s : ℚ → ℚ) (name : String)
    (dist speed angle : ℚ) (flags : List Bool) (g : GroupState)
    (h : g.pos.y = 0) :
    (initGroup c s dist angle).pos.y = 0 ∧
    (runFrames c s name dist speed flags g).pos.y = 0 ∧
    (runFrames c s name dist speed flags (initGroup c s dist angle)).pos.y
      = 0 := by
  have key : ∀ (fl : List Bool) (g0 : GroupState), g0.pos.y = 0 →
      (runFrames c s name dist speed fl g0).pos.y = 0 := by
    intro fl
    induction fl with
    | nil => intro g0 h0; exact h0
    | cons b tl ih =>
        intro g0 h0
        exact ih _ (stepPlanet_preserves_y0 c s b name dist speed g0 h0)
  exact ⟨rfl, key flags g h, key flags _ rfl⟩

/-- Concrete instance of C10_y_zero_invariant: two frames, first
merged then open, on a group starting on the Mercury orbit. -/
theorem C10_y_zero_invariant_witness :
    (⟨0, ⟨35, 0, 0⟩, ⟨1, 1, 1⟩, 0⟩ : GroupState).pos.y = 0 ∧
    ((initGroup (fun _ => 1) (fun _ => 0) 35 0).pos.y = 0 ∧
     (runFrames (fun _ => 1) (fun _ => 0) "Mercury" 35 (-(3/250))
        [true, false] ⟨0, ⟨35, 0, 0⟩, ⟨1, 1, 1⟩, 0⟩).pos.y = 0 ∧
     (runFrames (fun _ => 1) (fun _ => 0) "Mercury" 35 (-(3/250))
        [true, false]
        (initGroup (fun _ => 1) (fun _ => 0) 35 0)).pos.y = 0) :=
  ⟨rfl,
   C10_y_zero_invariant (fun _ => 1) (fun _ => 0) "Mercury" 35 (-(3/250)) 0
     [true, false] ⟨0, ⟨35, 0, 0⟩, ⟨1, 1, 1⟩, 0⟩ rfl⟩

/-- The landmark indices the classifier reads: the PIP joints and tips
of the four tracked fingers. -/
def trackedIdx : List (Fin 21) := [6, 8, 10, 12, 14, 16, 18, 20]

/-- Claim C9: classification is a function of the y coordinates of
landmarks 6, 8, 10, 12, 14, 16, 18 and 20 alone; two landmark sets
agreeing on those eight y values classify identically, whatever their
x and z coordinates and their other landmarks. -/
theorem C9_classify_depends_only_on_tracked_y (lm1 lm2 : LandmarkSet)
    (h : ∀ i ∈ trackedIdx, (lm1 i).y = (lm2 i).y) :
    classify (some lm1) = classify (some lm2) := by
  have h6 : (lm1 6).y = (lm2 6).y := h 6 (by decide)
  have h8 : (lm1 8).y = (lm2 8).y := h 8 (by decide)
  have h10 : (lm1 10).y = (lm2 10).y := h 10 (by decide)
  have h12 : (lm1 12).y = (lm2 12).y := h 12 (by decide)
  have h14 : (lm1 14).y = (lm2 14).y := h 14 (by decide)
  have h16 : (lm1 16).y = (lm2 16).y := h 16 (by decide)
  have h18 : (lm1 18).y = (lm2 18).y := h 18 (by decide)
  have h20 : (lm1 20).y = (lm2 20).y := h 20 (by decide)
  have hc : closedFingers lm1 = closedFingers lm2 := by
    unfold closedFingers isFingerClosed
    rw [h6, h8, h10, h12, h14, h16, h18, h20]
  show (if closedFingers lm1 ≥ 3 then GestureState.FIST else GestureState.OPEN)
      = (if closedFingers lm2 ≥ 3 then GestureState.FIST else GestureState.OPEN)
  rw [hc]

/-- A concrete landmark set whose x and z coordinates vary with the
index. -/
def lmSample1 : LandmarkSet := fun i => ⟨(i : ℚ), (i : ℚ) / 21, 0⟩

/-- A second concrete landmark set with the same y coordinates as
lmSample1 but different x and z coordinates everywhere. -/
def lmSample2 : LandmarkSet := fun i => ⟨(i : ℚ) + 7, (i : ℚ) / 21, 9⟩

/-- Concrete instance of C9_classify_depends_only_on_tracked_y at
lmSample1 and lmSample2. -/
theorem C9_classify_depends_only_on_tracked_y_witness :
    (∀ i ∈ trackedIdx, (lmSample1 i).y = (lmSample2 i).y) ∧
    classify (some lmSample1) = classify (some lmSample2) :=
  ⟨fun _ _ => rfl,
   C9_classify_depends_only_on_tracked_y lmSample1 lmSample2
     (fun _ _ => rfl)⟩

/-- The two scene configurations of App, selected by the gesture. -/
inductive SystemState where
  | normal
  | merged
deriving DecidableEq

/-- The App-level state: the scene configuration selected by the last
gesture event, and whether the camera controller is mounted. -/
structure AppState where
  systemState : SystemState
  cameraEnabled : Bool
deriving DecidableEq

/-- From App, handleGestureChange: a gesture event overwrites the
scene configuration, merged on a fist and normal otherwise. -/
def handleGestureChange (isFist : Bool) (st : AppState) : AppState :=
  { st with systemState := if isFist then SystemState.merged else SystemState.normal }

/-- From HandController.tsx, the useEffect cleanup: stopping the
camera cancels the requestAnimationFrame loop and closes the hand
tracker; the list of gesture events it emits is empty. -/
def gestureEventsOnCleanup : List Bool := []

/-- From App, the camera toggle together with the HandController
cleanup: the controller is unmounted (cameraEnabled becomes false)
after the cleanup events, of which there are none, are applied; the
scene configuration is not otherwise written. -/
def stopCamera (st : AppState) : AppState :=
  let afterCleanup :=
    gestureEventsOnCleanup.foldl (fun acc f => handleGestureChange f acc) st
  { afterCleanup with cameraEnabled := false }

/-- Claim C5 counterexample: stopping the camera while the scene is
merged leaves it merged, not the normal state the claim requires. -/
theorem C5_stop_counterexample :
    (stopCamera { systemState := SystemState.merged,
                  cameraEnabled := true }).systemState
      ≠ SystemState.normal := by
  decide

/-- Claim C5 amended: stopping the camera cancels the frame loop and
closes the tracker but leaves the scene configuration exactly as it
was, so a scene stopped during a fist stays merged. -/
theorem C5_stop_preserves_state (st : AppState) :
    (stopCamera st).systemState = st.systemState ∧
    (stopCamera st).cameraEnabled = false :=
  ⟨rfl, rfl⟩

/-- An RGB color value as written into the texture raster. -/
structure RGB where
  r : ℚ
  g : ℚ
  b : ℚ
deriving DecidableEq

/-- Clamping of a channel to the valid range, Math.max 0 of
Math.min 255. -/
def clamp255 (v : ℚ) : ℚ := max 0 (min 255 v)

/-- From SolarSystem.tsx, createPlanetTexture, the per-texel body of
the raster loop: n3 abstracts the coherent noise field noise3D, base
is the flat fill color parsed from the colorHex argument, and nx, ny
are the normalized texel coordinates. Jupiter thresholds a
band-distorted sample into three fixed colors; Earth thresholds the
primary sample at 0.15 into land green versus water blue and then
overrides the texel with white wherever an independent cloud sample
exceeds 0.5; every other body perturbs the base color channels by the
scaled noise sample, clamped to the channel range. -/
def texelColor (n3 : ℚ → ℚ → ℚ → ℚ) (name : String) (base : RGB)
    (nx ny : ℚ) : RGB :=
  let noiseVal := n3 (nx * 3) (ny * 3) 0
  if name = "Jupiter" then
    let turbulence := n3 (nx * 10) (ny * 10) 0 * (1/20)
    let nv := n3 (nx * 3) (ny * 20 + turbulence) 0
    if nv > 3/10 then ⟨210, 180, 140⟩
    else if nv < -(1/5) then ⟨160, 100, 60⟩
    else ⟨190, 150, 110⟩
  else if name = "Earth" then
    let landWater : RGB :=
      if noiseVal > 3/20 then ⟨40, 140, 60⟩ else ⟨10, 40, 120⟩
    let cloudNoise := n3 (nx * 6) (ny * 6) 10
    if cloudNoise > 1/2 then ⟨255, 255, 255⟩ else landWater
  else
    let varC := noiseVal * 20
    ⟨clamp255 (base.r + varC), clamp255 (base.g + varC),
     clamp255 (base.b + varC)⟩

/-- A color stop of a canvas gradient. -/
structure ColorStop where
  offset : ℚ
  color : String
deriving DecidableEq

/-- What a synthesizer drew on its canvas: a raster of texels, a
radial gradient, or a linear gradient. -/
inductive CanvasContent where
  | pixels (data : List RGB)
  | radialGradient (stops : List ColorStop)
  | linearGradient (stops : List ColorStop)
deriving DecidableEq

/-- The value a texture synthesizer returns: the empty fallback
texture of the missing-context branch, or a canvas texture holding
the drawn content. -/
inductive Texture where
  | empty
  | canvas (content : CanvasContent)
deriving DecidableEq

/-- The 2D drawing context handed back by canvas.getContext; its
internals are external to the core, so it carries no data. -/
inductive Ctx2D where
  | mk

/-- From SolarSystem.tsx, createPlanetTexture: with no 2D context the
synthesizer returns the empty texture; otherwise it fills the canvas
with the base color and rewrites every texel of the 512 by 512 raster
through the per-texel rule, row by row. -/
def createPlanetTexture (ctx : Option Ctx2D) (n3 : ℚ → ℚ → ℚ → ℚ)
    (name : String) (base : RGB) : Texture :=
  match ctx with
  | none => Texture.empty
  | some _ =>
      Texture.canvas (CanvasContent.pixels
        ((List.range 512).flatMap (fun y =>
          (List.range 512).map (fun x =>
            texelColor n3 name base ((x : ℚ) / 512) ((y : ℚ) / 512)))))

/-- From SolarSystem.tsx, createGlowTexture: with no 2D context the
synthesizer returns the empty texture; otherwise a radial gradient
from opaque white through warm yellow to transparent. -/
def createGlowTexture (ctx : Option Ctx2D) : Texture :=
  match ctx with
  | none => Texture.empty
  | some _ =>
      Texture.canvas (CanvasContent.radialGradient
        [ ⟨0, "rgba(255, 255, 255, 1)"⟩,
          ⟨1/5, "rgba(255, 220, 100, 0.6)"⟩,
          ⟨1, "rgba(0, 0, 0, 0)"⟩ ])

/-- From SolarSystem.tsx, createRingTexture: with no 2D context the
synthesizer returns the empty texture; otherwise a linear gradient
transparent at both ends and warm gray in the middle band. -/
def createRingTexture (ctx : Option Ctx2D) : Texture :=
  match ctx with
  | none => Texture.empty
  | some _ =>
      Texture.canvas (CanvasContent.linearGradient
        [ ⟨0, "rgba(0,0,0,0)"⟩,
          ⟨1/5, "rgba(200,180,150,0.8)"⟩,
          ⟨4/5, "rgba(180,170,140,0.5)"⟩,
          ⟨1, "rgba(0,0,0,0)"⟩ ])

/-- Helper: the Earth branch of the per-texel rule, written as the
pure branch structure it reduces to. -/
theorem texelColor_earth_eq (n3 : ℚ → ℚ → ℚ → ℚ) (base : RGB)
    (nx ny : ℚ) :
    texelColor n3 "Earth" base nx ny
      = if 1/2 < n3 (nx * 6) (ny * 6) 10 then (⟨255, 255, 255⟩ : RGB)
        else if 3/20 < n3 (nx * 3) (ny * 3) 0 then ⟨40, 140, 60⟩
        else ⟨10, 40, 120⟩ := rfl

/-- Claim C7: at every Earth texel, a cloud sample above 0.5 yields
opaque white whatever the primary sample; below that, a primary
sample above 0.15 yields the land green and any other primary sample
yields the water blue. -/
theorem C7_earth_texel (n3 : ℚ → ℚ → ℚ → ℚ) (base : RGB) (nx ny : ℚ) :
    (1/2 < n3 (nx * 6) (ny * 6) 10 →
      texelColor n3 "Earth" base nx ny = ⟨255, 255, 255⟩) ∧
    (¬ 1/2 < n3 (nx * 6) (ny * 6) 10 → 3/20 < n3 (nx * 3) (ny * 3) 0 →
      texelColor n3 "Earth" base nx ny = ⟨40, 140, 60⟩) ∧
    (¬ 1/2 < n3 (nx * 6) (ny * 6) 10 → ¬ 3/20 < n3 (nx * 3) (ny * 3) 0 →
      texelColor n3 "Earth" base nx ny = ⟨10, 40, 120⟩) := by
  refine ⟨fun hc => ?_, fun hc hl => ?_, fun hc hl => ?_⟩
  · rw [texelColor_earth_eq, if_pos hc]
  · rw [texelColor_earth_eq, if_neg hc, if_pos hl]
  · rw [texelColor_earth_eq, if_neg hc, if_neg hl]

/-- A concrete noise field whose primary sample at the origin texel is
0.2 and whose cloud sample there is 0.6. -/
def noiseSample : ℚ → ℚ → ℚ → ℚ := fun _ _ z => if z = 10 then 3/5 else 1/5

/-- Concrete instance of C7_earth_texel: primary sample 0.2 selects
land, and the cloud sample 0.6 then overrides the texel to white. -/
theorem C7_earth_texel_witness :
    (1/2 : ℚ) < noiseSample (0 * 6) (0 * 6) 10 ∧
    (3/20 : ℚ) < noiseSample (0 * 3) (0 * 3) 0 ∧
    texelColor noiseSample "Earth" ⟨34, 119, 255⟩ 0 0 = ⟨255, 255, 255⟩ :=
  ⟨by norm_num [noiseSample], by norm_num [noiseSample],
   (C7_earth_texel noiseSample ⟨34, 119, 255⟩ 0 0).1
     (by norm_num [noiseSample])⟩

/-- Claim C8: each of the three texture synthesizers returns the
empty fallback texture when creation of the 2D drawing context fails,
for every body name, base color and noise field. -/
theorem C8_missing_context_fallback (n3 : ℚ → ℚ → ℚ → ℚ)
    (name : String) (base : RGB) :
    createPlanetTexture none n3 name base = Texture.empty ∧
    createGlowTexture none = Texture.empty ∧
    createRingTexture none = Texture.empty :=
  ⟨rfl, rfl, rfl⟩
